import Mathlib

/-!
Verification of the registry-and-dispatch subsystem of the graphrag-mcp server.

The Python sources under `src/graphrag_mcp/` are shallowly embedded:
Python `str` becomes `String` (length and slicing measured in characters,
as in Python), `Dict[str, V]` becomes an insertion-ordered association
list with the same overwrite semantics as a Python dict, raising an
exception becomes returning `Except PyExc`, and an `async` generator's
single execution outcome is its value (`Except PyExc String` for resource
content generators, a total function for the four prompt generators,
which contain no raising operations).
-/

namespace GraphRAG

/-- Exceptions from `utils/exceptions.py` (one constructor per class,
carrying the fields the class stores), plus `otherExc` for a generic
Python exception that is not a `GraphRAGError`. -/
inductive PyExc : Type where
  | resourceNotFound (resource_uri : String)
  | contentGenerationFailed (resource_uri : String) (reason : String)
  | promptNotFound (prompt_name : String)
  | toolNotFound (tool_name : String)
  | toolExecutionFailed (tool_name : String) (details : String)
  | otherExc (msg : String)
  deriving DecidableEq, Repr

/-- `str(e)`: the `message` each class builds in `utils/exceptions.py`
(`Exception.__str__` returns the message passed to `super().__init__`);
for a generic exception, its own message. -/
def PyExc.message : PyExc → String
  | .resourceNotFound uri => "Resource not found: " ++ uri
  | .contentGenerationFailed uri reason =>
      "Failed to generate content for " ++ uri ++ ": " ++ reason
  | .promptNotFound n => "Prompt not found: " ++ n
  | .toolNotFound n => "Tool not found: " ++ n
  | .toolExecutionFailed n d => "Failed to execute tool " ++ n ++ ": " ++ d
  | .otherExc m => m

/-- The machine-readable `error_code` of each `GraphRAGError` subclass;
`none` for an exception outside the taxonomy. -/
def PyExc.errorCode : PyExc → Option String
  | .resourceNotFound _ => some "RESOURCE_NOT_FOUND"
  | .contentGenerationFailed _ _ => some "CONTENT_GENERATION_FAILED"
  | .promptNotFound _ => some "PROMPT_NOT_FOUND"
  | .toolNotFound _ => some "TOOL_NOT_FOUND"
  | .toolExecutionFailed _ _ => some "TOOL_EXECUTION_FAILED"
  | .otherExc _ => none

deriving instance DecidableEq for Except

/-- A Python `Dict[str, V]`: an insertion-ordered association list whose
keys are unique when built by `dictSet` from empty. -/
abbrev PyDict (α : Type) : Type := List (String × α)

/-- Python `d[k]` lookup (`k in d` is `(dictFind? d k).isSome`). -/
def dictFind? {α : Type} : PyDict α → String → Option α
  | [], _ => none
  | (k', v) :: rest, k => if k' = k then some v else dictFind? rest k

/-- Python `d.get(k, default)`. -/
def dictGet {α : Type} (d : PyDict α) (k : String) (dflt : α) : α :=
  (dictFind? d k).getD dflt

/-- Python `d[k] = v`: replace the value at the first matching key in
place, else append — a Python dict keeps insertion order and updates an
existing key without moving it. -/
def dictSet {α : Type} : PyDict α → String → α → PyDict α
  | [], k, v => [(k, v)]
  | (k', v') :: rest, k, v =>
      if k' = k then (k, v) :: rest else (k', v') :: dictSet rest k v

/-- Number of entries whose key is `k`. -/
def countKey {α : Type} (d : PyDict α) (k : String) : Nat :=
  (d.filter (fun q => q.1 = k)).length

/-- The dict invariant: keys occur at most once. -/
def keysNodup {α : Type} (d : PyDict α) : Prop :=
  (d.map Prod.fst).Nodup

theorem dictGet_of_find_none {α : Type} (d : PyDict α) (k : String) (dflt : α)
    (h : dictFind? d k = none) : dictGet d k dflt = dflt := by
  simp [dictGet, h]

theorem dictFind?_dictSet_self {α : Type} (d : PyDict α) (k : String) (v : α) :
    dictFind? (dictSet d k v) k = some v := by
  induction d with
  | nil => simp [dictSet, dictFind?]
  | cons hd tl ih =>
      obtain ⟨k', v'⟩ := hd
      by_cases hk : k' = k
      · simp [dictSet, hk, dictFind?]
      · simp [dictSet, hk, dictFind?, ih]

theorem dictFind?_dictSet_ne {α : Type} (d : PyDict α) (k k' : String) (v : α)
    (h : k ≠ k') : dictFind? (dictSet d k v) k' = dictFind? d k' := by
  induction d with
  | nil => simp [dictSet, dictFind?, h]
  | cons hd tl ih =>
      obtain ⟨k₀, v₀⟩ := hd
      by_cases hk : k₀ = k
      · subst hk
        simp [dictSet, dictFind?, h]
      · simp [dictSet, hk, dictFind?, ih]

theorem dictGet_dictSet_self {α : Type} (d : PyDict α) (k : String) (v : α)
    (dflt : α) : dictGet (dictSet d k v) k dflt = v := by
  simp [dictGet, dictFind?_dictSet_self]

theorem dictGet_dictSet_ne {α : Type} (d : PyDict α) (k k' : String) (v : α)
    (dflt : α) (h : k ≠ k') :
    dictGet (dictSet d k v) k' dflt = dictGet d k' dflt := by
  simp [dictGet, dictFind?_dictSet_ne d k k' v h]

theorem countKey_eq_zero {α : Type} (d : PyDict α) (k : String)
    (h : k ∉ d.map Prod.fst) : countKey d k = 0 := by
  induction d with
  | nil => simp [countKey]
  | cons hd tl ih =>
      simp only [List.map_cons, List.mem_cons] at h
      push_neg at h
      have h1 : hd.1 ≠ k := fun he => h.1 he.symm
      have h2 := ih h.2
      simp [countKey, List.filter_cons, h1] at h2 ⊢
      exact h2

theorem mem_keys_dictSet {α : Type} (d : PyDict α) (k a : String) (v : α) :
    a ∈ (dictSet d k v).map Prod.fst ↔ a ∈ d.map Prod.fst ∨ a = k := by
  induction d with
  | nil => simp [dictSet, eq_comm]
  | cons hd tl ih =>
      obtain ⟨k₀, v₀⟩ := hd
      by_cases hk : k₀ = k
      · subst hk
        simp [dictSet, eq_comm]
        tauto
      · simp [dictSet, hk, ih]
        tauto

theorem keysNodup_dictSet {α : Type} (d : PyDict α) (k : String) (v : α)
    (h : keysNodup d) : keysNodup (dictSet d k v) := by
  induction d with
  | nil => simp [dictSet, keysNodup]
  | cons hd tl ih =>
      obtain ⟨k₀, v₀⟩ := hd
      simp only [keysNodup, List.map_cons, List.nodup_cons] at h
      by_cases hk : k₀ = k
      · subst hk
        simpa [dictSet, keysNodup] using h
      · have htl := ih h.2
        simp only [dictSet, hk, if_false, keysNodup, List.map_cons,
          List.nodup_cons]
        refine ⟨?_, htl⟩
        rw [mem_keys_dictSet]
        rintro (hmem | heq)
        · exact h.1 hmem
        · exact hk heq

theorem countKey_dictSet {α : Type} (d : PyDict α) (k : String) (v : α)
    (h : keysNodup d) : countKey (dictSet d k v) k = 1 := by
  induction d with
  | nil => simp [dictSet, countKey, List.filter]
  | cons hd tl ih =>
      obtain ⟨k₀, v₀⟩ := hd
      simp only [keysNodup, List.map_cons, List.nodup_cons] at h
      by_cases hk : k₀ = k
      · subst hk
        have h0 := countKey_eq_zero tl k₀ h.1
        simp only [dictSet, if_pos rfl]
        simp only [countKey, List.filter_cons] at h0 ⊢
        simp [h0]
      · have h2 := ih h.2
        simp [dictSet, hk, countKey, List.filter_cons] at h2 ⊢
        exact h2

/-- Python string length (`len(s)`), counted in characters. -/
def pyLen (s : String) : Nat := s.data.length

/-- Python slicing `s[:n]`: the first `n` characters. -/
def pyTake (s : String) (n : Nat) : String := String.mk (s.data.take n)

theorem data_append (s t : String) : (s ++ t).data = s.data ++ t.data := by
  cases s
  cases t
  rfl

/-- `ServerConfig` from `config.py`. -/
structure ServerConfig : Type where
  server_name : String := "graphrag-mcp"
  server_version : String := "0.1.0"
  log_level : String := "INFO"
  max_content_length : Nat := 1000000
  enable_debug : Bool := false
  deriving DecidableEq, Repr

/-- `DEFAULT_CONFIG = ServerConfig()` from `config.py`. -/
def DEFAULT_CONFIG : ServerConfig := {}

/-- `mcp.types.Resource` restricted to the fields the repository sets in
`resources/definitions.py`. -/
structure Resource : Type where
  uri : String
  name : String
  description : String
  mimeType : String
  deriving DecidableEq, Repr

/-- `ResourceRegistry` state from `resources/registry.py`: `_resources`
and `_content_generators`, each keyed by the resource URI.  A content
generator (`async () -> str` that may raise) is embedded as its single
execution outcome. -/
structure ResourceRegistry : Type where
  _resources : PyDict Resource
  _content_generators : PyDict (Except PyExc String)
  deriving DecidableEq

/-- `ResourceRegistry.register_resource`: store the resource and its
generator under `resource.uri` in both dicts (a plain dict assignment —
an existing binding is silently overwritten). -/
def ResourceRegistry.register_resource (reg : ResourceRegistry)
    (resource : Resource) (content_generator : Except PyExc String) :
    ResourceRegistry where
  _resources := dictSet reg._resources resource.uri resource
  _content_generators :=
    dictSet reg._content_generators resource.uri content_generator

/-- The observable outcome of one `get_content` call: the returned value
or raised exception, how many times the bound generator was invoked, and
the registry state after the call (the method never writes to `self`). -/
structure ReadOutcome : Type where
  result : Except PyExc String
  genCalls : Nat
  registryAfter : ResourceRegistry
  deriving DecidableEq

/-- `ResourceRegistry.get_content`: raise `ResourceNotFoundError(uri)` if
`uri` is not in `_content_generators`; otherwise invoke the generator
once, returning its content, or wrapping a raised exception `e` as
`ContentGenerationError(uri, str(e))`. -/
def ResourceRegistry.get_content (reg : ResourceRegistry) (uri : String) :
    ReadOutcome :=
  match dictFind? reg._content_generators uri with
  | none => ⟨.error (.resourceNotFound uri), 0, reg⟩
  | some gen =>
      match gen with
      | .ok content => ⟨.ok content, 1, reg⟩
      | .error e => ⟨.error (.contentGenerationFailed uri e.message), 1, reg⟩

/-- The fixed truncation marker appended by `handle_read_resource` in
`server.py`. -/
def truncationMarker : String := "\n\n[Content truncated due to length limit]"

/-- `handle_read_resource` from `server.py` (`GraphRAGMCPServer.
_setup_handlers`): read the content via the resource registry, then, if
its length exceeds `config.max_content_length`, return the first
`max_content_length` characters followed by the truncation marker;
exceptions are re-raised unchanged. -/
def handle_read_resource (config : ServerConfig) (reg : ResourceRegistry)
    (uri : String) : Except PyExc String :=
  match (reg.get_content uri).result with
  | .error e => .error e
  | .ok content =>
      .ok (if pyLen content > config.max_content_length
           then pyTake content config.max_content_length ++ truncationMarker
           else content)

/-- `mcp.types.TextContent` restricted to the fields the repository sets. -/
structure TextContent : Type where
  type : String
  text : String
  deriving DecidableEq, Repr

/-- `mcp.types.PromptMessage` restricted to the fields the repository
sets (`content` is always a `TextContent`). -/
structure PromptMessage : Type where
  role : String
  content : TextContent
  deriving DecidableEq, Repr

/-- `mcp.types.GetPromptResult` restricted to the fields the repository
sets. -/
structure GetPromptResult : Type where
  description : String
  messages : List PromptMessage
  deriving DecidableEq, Repr

/-- `mcp.types.PromptArgument`. -/
structure PromptArgument : Type where
  name : String
  description : String
  required : Bool
  deriving DecidableEq, Repr

/-- `mcp.types.Prompt` restricted to the fields the repository sets. -/
structure Prompt : Type where
  name : String
  description : String
  arguments : List PromptArgument
  deriving DecidableEq, Repr

/-- `generate_analyze_pattern_prompt` from `prompts/generators.py`:
reads `use_case` (default `""`) and `constraints` (default
`"Not specified"`) from the argument mapping, interpolates them into the
fixed template, and returns a one-message result. -/
def generate_analyze_pattern_prompt (arguments : PyDict String) :
    GetPromptResult :=
  let use_case := dictGet arguments "use_case" ""
  let constraints := dictGet arguments "constraints" "Not specified"
  let prompt :=
    "Based on the comprehensive GraphRAG research, analyze the best pattern(s) for this use case:\n\n**Use Case**: "
    ++ use_case ++ "\n**Constraints**: " ++ constraints ++
    "\n\nPlease consider:\n\n1. **Construction Patterns**: Which of the 6 construction patterns would be most suitable?\n   - LLM-Assisted Entity & Relation Graphs (Ontology-Aligned)\n   - Event Reification (N-ary Relations as Nodes)\n   - Layered Graphs (Multi-Tier Knowledge Integration)\n   - Provenance & Evidence Layering\n   - Temporal & Episodic Graphs\n   - Hybrid Symbolic-Vector Graphs\n\n2. **Embedding Strategies**: Which embedding fusion approaches would work best?\n   - Node embeddings (semantic + structural)\n   - Edge/relation embeddings\n   - Path/metapath embeddings\n   - Subgraph/community embeddings\n   - Joint representation fusion\n\n3. **Retrieval Strategies**: Which retrieval orchestration strategy fits the query patterns?\n   - Global-first retrieval (top-down)\n   - Local-first retrieval (bottom-up)\n   - U-shaped hybrid retrieval\n   - Query rewriting & decomposition\n   - Temporal/predictive retrieval\n   - Constraint-guided filtering\n\n4. **Architecture Choice**: Should this use RDF/OWL, LPG, hypergraphs, or factor graphs?\n\nProvide specific recommendations with reasoning based on the research findings."
  { description := "Analysis of best GraphRAG patterns for the specified use case"
    messages := [{ role := "user"
                   content := { type := "text", text := prompt } }] }

/-- `generate_design_knowledge_graph_prompt` from
`prompts/generators.py`: reads `domain` (default `""`), `data_sources`
(default `""`) and `query_types` (default `"Not specified"`). -/
def generate_design_knowledge_graph_prompt (arguments : PyDict String) :
    GetPromptResult :=
  let domain := dictGet arguments "domain" ""
  let data_sources := dictGet arguments "data_sources" ""
  let query_types := dictGet arguments "query_types" "Not specified"
  let prompt :=
    "Design a knowledge graph structure for LLM integration:\n\n**Domain**: "
    ++ domain ++ "\n**Data Sources**: " ++ data_sources ++
    "\n**Expected Query Types**: " ++ query_types ++
    "\n\nBased on the GraphRAG research, please provide:\n\n1. **Graph Construction Approach**:\n   - Which construction pattern(s) to use and why\n   - How to handle entity extraction and relation modeling\n   - Ontology alignment strategy (if applicable)\n   - Event modeling approach for complex relationships\n\n2. **Layering Strategy**:\n   - Whether to use layered graphs (user data → domain knowledge → canonical knowledge)\n   - How to structure the layers for your domain\n   - Integration points between layers\n\n3. **Temporal Considerations**:\n   - Whether temporal/episodic modeling is needed\n   - How to handle state transitions and sequences\n   - Provenance and evidence tracking requirements\n\n4. **Embedding Integration**:\n   - Which types of embeddings to compute (node, edge, path, subgraph)\n   - How to fuse semantic and structural information\n   - Vector indexing strategy\n\n5. **Technology Recommendations**:\n   - Graph database choice (Neo4j, Neptune, GraphDB, etc.)\n   - Vector database for hybrid search\n   - Integration framework recommendations\n\nPlease reference specific examples and patterns from the research where applicable."
  { description := "Knowledge graph design guidance for the specified domain"
    messages := [{ role := "user"
                   content := { type := "text", text := prompt } }] }

/-- `generate_implement_retrieval_strategy_prompt` from
`prompts/generators.py`: reads `strategy` (default `""`) and
`technology_stack` (default `"Open to suggestions"`). -/
def generate_implement_retrieval_strategy_prompt
    (arguments : PyDict String) : GetPromptResult :=
  let strategy := dictGet arguments "strategy" ""
  let tech_stack := dictGet arguments "technology_stack" "Open to suggestions"
  let prompt :=
    "Provide implementation guidance for the " ++ strategy ++
    " retrieval strategy:\n\n**Technology Stack Preference**: " ++ tech_stack ++
    "\n\nBased on the GraphRAG research, please provide:\n\n1. **Strategy Overview**:\n   - Detailed mechanics of how "
    ++ strategy ++
    " works\n   - When this strategy is most effective\n   - Typical query patterns it handles well\n\n2. **Implementation Steps**:\n   - Step-by-step implementation approach\n   - Key algorithms or techniques required\n   - Data structures and indexing needs\n\n3. **Technology Integration**:\n   - Recommended tools and frameworks\n   - How to integrate with LLM applications\n   - Performance considerations and optimizations\n\n4. **Code Architecture**:\n   - High-level system design\n   - API or interface design\n   - Error handling and edge cases\n\n5. **Evaluation and Tuning**:\n   - How to measure strategy effectiveness\n   - Parameters to tune for different use cases\n   - Common pitfalls and how to avoid them\n\nPlease include specific examples and reference implementations where available from the research."
  { description := "Implementation guidance for " ++ strategy
    messages := [{ role := "user"
                   content := { type := "text", text := prompt } }] }

/-- `generate_compare_architectures_prompt` from
`prompts/generators.py`: reads `requirements` (default `""`). -/
def generate_compare_architectures_prompt (arguments : PyDict String) :
    GetPromptResult :=
  let requirements := dictGet arguments "requirements" ""
  let prompt :=
    "Compare graph model architectures for these requirements:\n\n**Requirements**: "
    ++ requirements ++
    "\n\nBased on the architectural trade-offs analysis in the GraphRAG research, please compare:\n\n1. **Labeled Property Graphs (LPG)**:\n   - Pros and cons for your requirements\n   - Best use cases and limitations\n   - Technology options (Neo4j, TigerGraph, etc.)\n   - LLM integration capabilities\n\n2. **RDF/OWL Triple Stores**:\n   - Advantages for standardization and reasoning\n   - Interoperability benefits\n   - Query capabilities (SPARQL)\n   - Performance considerations\n\n3. **Hypergraphs and N-ary Structures**:\n   - When complex multi-entity relationships matter\n   - Implementation complexity vs. benefits\n   - Tool availability and maturity\n\n4. **Hybrid Approaches**:\n   - Combining multiple graph models\n   - Vector database integration\n   - Multi-modal data handling\n\n5. **Recommendation**:\n   - Which architecture best fits your requirements\n   - Implementation strategy\n   - Technology stack suggestions\n   - Migration considerations if applicable\n\nPlease reference specific research findings and industry examples where relevant."
  { description := "Architectural comparison for the specified requirements"
    messages := [{ role := "user"
                   content := { type := "text", text := prompt } }] }

/-- `PromptRegistry` state from `prompts/registry.py`: `_prompts` and
`_generators`, keyed by prompt name.  A registered generator
(`async (Dict[str, str]) -> GetPromptResult`, may raise) is embedded as
a function from the argument mapping to its execution outcome. -/
structure PromptRegistry : Type where
  _prompts : PyDict Prompt
  _generators : PyDict (PyDict String → Except PyExc GetPromptResult)

/-- `PromptRegistry.register_prompt`: store the prompt and its generator
under `prompt.name` (a plain dict assignment — an existing binding is
silently overwritten). -/
def PromptRegistry.register_prompt (reg : PromptRegistry) (prompt : Prompt)
    (generator : PyDict String → Except PyExc GetPromptResult) :
    PromptRegistry where
  _prompts := dictSet reg._prompts prompt.name prompt
  _generators := dictSet reg._generators prompt.name generator

/-- `PromptRegistry.generate_prompt`: raise `PromptNotFoundError(name)`
if `name` is not in `_generators`; otherwise invoke the generator and
return its result — a raised exception is logged and re-raised UNCHANGED
(the `except` block is a bare `raise`, there is no wrapping). -/
def PromptRegistry.generate_prompt (reg : PromptRegistry) (name : String)
    (arguments : PyDict String) : Except PyExc GetPromptResult :=
  match dictFind? reg._generators name with
  | none => .error (.promptNotFound name)
  | some generator =>
      match generator arguments with
      | .ok result => .ok result
      | .error e => .error e

/-- One tag per tool-handler method of `ToolRegistry` in
`tools/registry.py`; `runHandler` below gives each tag its body. -/
inductive HandlerTag : Type where
  | queryResource
  | getConstructionPatterns
  | getEmbeddingStrategies
  | getRetrievalStrategies
  | getArchitecturalTradeoffs
  | getTechnologyStacks
  | analyzePattern
  | compareArchitectures
  | designKnowledgeGraph
  | implementRetrievalStrategy
  deriving DecidableEq, Repr

/-- `ToolRegistry` state from `tools/registry.py`: `_tool_handlers`
(name → bound handler method, here a tag), `_resource_handler` and
`_prompt_handler` (both initialized to `None` and injected later). -/
structure ToolRegistry : Type where
  _tool_handlers : PyDict HandlerTag
  _resource_handler : Option (String → Except PyExc String)
  _prompt_handler : Option (String → PyDict String → Except PyExc GetPromptResult)

/-- The bodies of the ten `_handle_*` methods of `ToolRegistry`.  Each
first checks that the delegate it needs has been injected (raising
`ToolExecutionError(toolName, "... handler not configured")` otherwise),
then validates its own required argument with `arguments.get(key, "")`
followed by a falsiness test (so an empty string fails like an absent
key), then calls the delegate; for the prompt-backed tools the result is
flattened to `result.messages[0].content.text`, or the literal
`"No response generated"` when the message list is empty. -/
def runHandler (reg : ToolRegistry) (tag : HandlerTag)
    (arguments : PyDict String) : Except PyExc String :=
  match tag with
  | .queryResource =>
      match reg._resource_handler with
      | none => .error (.toolExecutionFailed "query_graphrag_resource"
          "Resource handler not configured")
      | some handler =>
          let resource_uri := dictGet arguments "resource_uri" ""
          if resource_uri = "" then
            .error (.toolExecutionFailed "query_graphrag_resource"
              "resource_uri is required")
          else handler resource_uri
  | .getConstructionPatterns =>
      match reg._resource_handler with
      | none => .error (.toolExecutionFailed "get_construction_patterns"
          "Resource handler not configured")
      | some handler => handler "graphrag://construction-patterns"
  | .getEmbeddingStrategies =>
      match reg._resource_handler with
      | none => .error (.toolExecutionFailed "get_embedding_strategies"
          "Resource handler not configured")
      | some handler => handler "graphrag://embedding-strategies"
  | .getRetrievalStrategies =>
      match reg._resource_handler with
      | none => .error (.toolExecutionFailed "get_retrieval_strategies"
          "Resource handler not configured")
      | some handler => handler "graphrag://retrieval-strategies"
  | .getArchitecturalTradeoffs =>
      match reg._resource_handler with
      | none => .error (.toolExecutionFailed "get_architectural_tradeoffs"
          "Resource handler not configured")
      | some handler => handler "graphrag://architectural-tradeoffs"
  | .getTechnologyStacks =>
      match reg._resource_handler with
      | none => .error (.toolExecutionFailed "get_technology_stacks"
          "Resource handler not configured")
      | some handler => handler "graphrag://technology-stacks"
  | .analyzePattern =>
      match reg._prompt_handler with
      | none => .error (.toolExecutionFailed "analyze_graphrag_pattern"
          "Prompt handler not configured")
      | some handler =>
          let use_case := dictGet arguments "use_case" ""
          if use_case = "" then
            .error (.toolExecutionFailed "analyze_graphrag_pattern"
              "use_case is required")
          else
            let prompt_args : PyDict String :=
              [("use_case", use_case),
               ("requirements", dictGet arguments "requirements" ""),
               ("data_types", dictGet arguments "data_types" "")]
            match handler "analyze-graphrag-pattern" prompt_args with
            | .error e => .error e
            | .ok result =>
                .ok (match result.messages with
                     | [] => "No response generated"
                     | m :: _ => m.content.text)
  | .compareArchitectures =>
      match reg._prompt_handler with
      | none => .error (.toolExecutionFailed "compare_architectures"
          "Prompt handler not configured")
      | some handler =>
          let use_case := dictGet arguments "use_case" ""
          if use_case = "" then
            .error (.toolExecutionFailed "compare_architectures"
              "use_case is required")
          else
            let prompt_args : PyDict String :=
              [("use_case", use_case),
               ("scale", dictGet arguments "scale" ""),
               ("performance_requirements",
                dictGet arguments "performance_requirements" "")]
            match handler "compare-architectures" prompt_args with
            | .error e => .error e
            | .ok result =>
                .ok (match result.messages with
                     | [] => "No response generated"
                     | m :: _ => m.content.text)
  | .designKnowledgeGraph =>
      match reg._prompt_handler with
      | none => .error (.toolExecutionFailed "design_knowledge_graph"
          "Prompt handler not configured")
      | some handler =>
          let domain := dictGet arguments "domain" ""
          if domain = "" then
            .error (.toolExecutionFailed "design_knowledge_graph"
              "domain is required")
          else
            let prompt_args : PyDict String :=
              [("domain", domain),
               ("data_sources", dictGet arguments "data_sources" ""),
               ("integration_requirements",
                dictGet arguments "integration_requirements" "")]
            match handler "design-knowledge-graph" prompt_args with
            | .error e => .error e
            | .ok result =>
                .ok (match result.messages with
                     | [] => "No response generated"
                     | m :: _ => m.content.text)
  | .implementRetrievalStrategy =>
      match reg._prompt_handler with
      | none => .error (.toolExecutionFailed "implement_retrieval_strategy"
          "Prompt handler not configured")
      | some handler =>
          let strategy := dictGet arguments "strategy" ""
          if strategy = "" then
            .error (.toolExecutionFailed "implement_retrieval_strategy"
              "strategy is required")
          else
            let prompt_args : PyDict String :=
              [("strategy", strategy),
               ("technology_stack", dictGet arguments "technology_stack" ""),
               ("use_case", dictGet arguments "use_case" "")]
            match handler "implement-retrieval-strategy" prompt_args with
            | .error e => .error e
            | .ok result =>
                .ok (match result.messages with
                     | [] => "No response generated"
                     | m :: _ => m.content.text)

/-- The handler map built by `ToolRegistry.register_all_tools`, in its
registration order. -/
def allToolHandlers : PyDict HandlerTag :=
  [("query_graphrag_resource", .queryResource),
   ("get_construction_patterns", .getConstructionPatterns),
   ("get_embedding_strategies", .getEmbeddingStrategies),
   ("get_retrieval_strategies", .getRetrievalStrategies),
   ("get_architectural_tradeoffs", .getArchitecturalTradeoffs),
   ("get_technology_stacks", .getTechnologyStacks),
   ("analyze_graphrag_pattern", .analyzePattern),
   ("compare_architectures", .compareArchitectures),
   ("design_knowledge_graph", .designKnowledgeGraph),
   ("implement_retrieval_strategy", .implementRetrievalStrategy)]

/-- `ToolRegistry.execute_tool`: raise `ToolNotFoundError(name)` if
`name` is not in `_tool_handlers` (this lookup is OUTSIDE the `try`, so
it is never re-wrapped); otherwise run the handler, wrapping any raised
exception `e` as `ToolExecutionError(name, str(e))`. -/
def ToolRegistry.execute_tool (reg : ToolRegistry) (name : String)
    (arguments : PyDict String) : Except PyExc String :=
  match dictFind? reg._tool_handlers name with
  | none => .error (.toolNotFound name)
  | some tag =>
      match runHandler reg tag arguments with
      | .ok result => .ok result
      | .error e => .error (.toolExecutionFailed name e.message)

/-- The URIs of the 25 resources of `resources/definitions.py`
(`GRAPHRAG_RESOURCES`), in catalog order. -/
def GRAPHRAG_RESOURCE_URIS : List String :=
  ["graphrag://overview",
   "graphrag://construction-patterns",
   "graphrag://embedding-strategies",
   "graphrag://retrieval-strategies",
   "graphrag://architectural-tradeoffs",
   "graphrag://literature-landscape",
   "graphrag://technology-stacks",
   "graphrag://pattern-catalog",
   "graphrag://patterns/llm-assisted-extraction",
   "graphrag://patterns/event-reification",
   "graphrag://patterns/layered-graphs",
   "graphrag://patterns/provenance-evidence",
   "graphrag://patterns/temporal-episodic",
   "graphrag://patterns/hybrid-symbolic-vector",
   "graphrag://embeddings/node-embeddings",
   "graphrag://embeddings/edge-relation-embeddings",
   "graphrag://embeddings/path-metapath-embeddings",
   "graphrag://embeddings/subgraph-community-embeddings",
   "graphrag://embeddings/joint-representation-fusion",
   "graphrag://retrieval/global-first",
   "graphrag://retrieval/local-first",
   "graphrag://retrieval/u-shaped-hybrid",
   "graphrag://retrieval/query-rewriting-decomposition",
   "graphrag://retrieval/temporal-predictive",
   "graphrag://retrieval/constraint-guided-filtering"]

/-- `GRAPHRAG_PROMPTS` from `prompts/definitions.py`. -/
def GRAPHRAG_PROMPTS : List Prompt :=
  [{ name := "analyze-graphrag-pattern"
     description := "Analyze which GraphRAG pattern would be best for a specific use case"
     arguments :=
       [{ name := "use_case"
          description := "Description of the use case, domain, and requirements"
          required := true },
        { name := "constraints"
          description := "Any technical constraints, data types, or performance requirements"
          required := false }] },
   { name := "design-knowledge-graph"
     description := "Get guidance on designing a knowledge graph structure for LLM integration"
     arguments :=
       [{ name := "domain"
          description := "Domain or industry (e.g., healthcare, finance, enterprise)"
          required := true },
        { name := "data_sources"
          description := "Types of data sources to integrate"
          required := true },
        { name := "query_types"
          description := "Expected types of queries or questions"
          required := false }] },
   { name := "implement-retrieval-strategy"
     description := "Get implementation guidance for a specific GraphRAG retrieval strategy"
     arguments :=
       [{ name := "strategy"
          description := "Name of the retrieval strategy to implement"
          required := true },
        { name := "technology_stack"
          description := "Preferred technologies, frameworks, or platforms"
          required := false }] },
   { name := "compare-architectures"
     description := "Compare different graph model architectures for a specific use case"
     arguments :=
       [{ name := "requirements"
          description := "Specific requirements like scale, performance, standardization needs"
          required := true }] }]

/-- The `prompt_generators` mapping of `GraphRAGMCPServer._setup_prompts`
in `server.py` (the four pure generators, lifted to the registry's
may-raise generator type). -/
def prompt_generators :
    PyDict (PyDict String → Except PyExc GetPromptResult) :=
  [("analyze-graphrag-pattern",
    fun arguments => .ok (generate_analyze_pattern_prompt arguments)),
   ("design-knowledge-graph",
    fun arguments => .ok (generate_design_knowledge_graph_prompt arguments)),
   ("implement-retrieval-strategy",
    fun arguments => .ok (generate_implement_retrieval_strategy_prompt arguments)),
   ("compare-architectures",
    fun arguments => .ok (generate_compare_architectures_prompt arguments))]

/-- The loop of `GraphRAGMCPServer._setup_prompts`: register every
prompt of `GRAPHRAG_PROMPTS` whose name occurs in `prompt_generators`. -/
def serverPromptRegistry : PromptRegistry :=
  GRAPHRAG_PROMPTS.foldl
    (fun reg prompt =>
      match dictFind? prompt_generators prompt.name with
      | some generator => reg.register_prompt prompt generator
      | none => reg)
    ⟨[], []⟩

/-- `GraphRAGMCPServer._setup_tools` in `server.py`: inject the resource
registry's `get_content` and the prompt registry's `generate_prompt` as
the two delegates, then register all tools. -/
def setupToolRegistry (resourceRegistry : ResourceRegistry)
    (promptRegistry : PromptRegistry) : ToolRegistry where
  _tool_handlers := allToolHandlers
  _resource_handler :=
    some (fun uri => (resourceRegistry.get_content uri).result)
  _prompt_handler :=
    some (fun name arguments => promptRegistry.generate_prompt name arguments)

/-- The spec's abstract error taxonomy (spec §7), used only to compare
the code's exception classes against the kinds the spec names. -/
inductive SpecErrorKind : Type where
  | notFound
  | generationFailed
  | executionFailed
  | missingArgument
  | notConfigured
  deriving DecidableEq, Repr

/-- Modelled from the spec: §7 maps each `GraphRAGError` subclass (by
its machine-readable code) to a taxonomy kind — the three not-found
classes to `NotFound`, `ContentGenerationError` to `GenerationFailed`,
`ToolExecutionError` to `ExecutionFailed`; §7 itself notes
`MissingArgument` is "not modeled as a distinct taxonomy member in the
current design", and the code likewise has no class for `NotConfigured`
or `MissingArgument`, so no exception maps to those kinds.  A generic
exception is outside the taxonomy (`none`). -/
def specKindOf : PyExc → Option SpecErrorKind
  | .resourceNotFound _ => some .notFound
  | .contentGenerationFailed _ _ => some .generationFailed
  | .promptNotFound _ => some .notFound
  | .toolNotFound _ => some .notFound
  | .toolExecutionFailed _ _ => some .executionFailed
  | .otherExc _ => none

/-- C1: for a resource key bound to a generator producing content `s`,
`handle_read_resource` returns `s` unmodified when `len(s)` is at or
under the configured maximum `L` (default 1,000,000); when `len(s)`
exceeds `L` it returns the first `L` characters of `s` followed by the
fixed truncation marker, so the result has length exactly
`L + len(marker)` and ends in the marker. -/
theorem readResource_truncation (config : ServerConfig)
    (reg : ResourceRegistry) (uri s : String)
    (hbound : dictFind? reg._content_generators uri = some (.ok s)) :
    (pyLen s ≤ config.max_content_length →
      handle_read_resource config reg uri = .ok s) ∧
    (pyLen s > config.max_content_length →
      handle_read_resource config reg uri =
        .ok (pyTake s config.max_content_length ++ truncationMarker) ∧
      pyLen (pyTake s config.max_content_length ++ truncationMarker) =
        config.max_content_length + pyLen truncationMarker ∧
      List.IsSuffix truncationMarker.data
        (pyTake s config.max_content_length ++ truncationMarker).data) ∧
    DEFAULT_CONFIG.max_content_length = 1000000 := by
  refine ⟨?_, ?_, rfl⟩
  · intro h
    have hnot : ¬ pyLen s > config.max_content_length := not_lt.mpr h
    simp [handle_read_resource, ResourceRegistry.get_content, hbound, hnot]
  · intro h
    refine ⟨?_, ?_, ?_⟩
    · simp [handle_read_resource, ResourceRegistry.get_content, hbound, h]
    · have hdata : (pyTake s config.max_content_length ++
          truncationMarker).data =
          s.data.take config.max_content_length ++ truncationMarker.data := by
        rw [data_append]
        rfl
      have hlt : config.max_content_length < s.data.length := h
      rw [pyLen, hdata, List.length_append, List.length_take,
        Nat.min_eq_left (Nat.le_of_lt hlt)]
      rfl
    · exact ⟨s.data.take config.max_content_length,
        by rw [data_append]; rfl⟩

def smallConfig : ServerConfig := { max_content_length := 3 }

def demoResourceRegistry : ResourceRegistry :=
  ⟨[], [("graphrag://demo", .ok "abcde")]⟩

theorem readResource_truncation_witness :
    (dictFind? demoResourceRegistry._content_generators "graphrag://demo" =
      some (.ok "abcde")) ∧
    (handle_read_resource smallConfig demoResourceRegistry "graphrag://demo" =
        .ok (pyTake "abcde" 3 ++ truncationMarker) ∧
      pyLen (pyTake "abcde" 3 ++ truncationMarker) =
        3 + pyLen truncationMarker ∧
      List.IsSuffix truncationMarker.data
        (pyTake "abcde" 3 ++ truncationMarker).data) ∧
    handle_read_resource DEFAULT_CONFIG demoResourceRegistry
      "graphrag://demo" = .ok "abcde" :=
  ⟨by decide,
   (readResource_truncation smallConfig demoResourceRegistry
     "graphrag://demo" "abcde" (by decide)).2.1 (by decide),
   (readResource_truncation DEFAULT_CONFIG demoResourceRegistry
     "graphrag://demo" "abcde" (by decide)).1 (by decide)⟩

/-- C2: `get_content` on an unbound key raises
`ResourceNotFoundError` carrying that exact key, invokes no generator
and leaves the registry unchanged; on a bound key whose generator raises
`e` it raises `ContentGenerationError(key, str(e))`, invoking the
generator exactly once (no retry) and leaving the registry unchanged. -/
theorem resource_read_failure_semantics (reg : ResourceRegistry)
    (uri : String) :
    (dictFind? reg._content_generators uri = none →
      reg.get_content uri = ⟨.error (.resourceNotFound uri), 0, reg⟩) ∧
    (∀ e : PyExc, dictFind? reg._content_generators uri = some (.error e) →
      reg.get_content uri =
        ⟨.error (.contentGenerationFailed uri e.message), 1, reg⟩) := by
  constructor
  · intro h
    simp [ResourceRegistry.get_content, h]
  · intro e h
    simp [ResourceRegistry.get_content, h]

def failingResourceRegistry : ResourceRegistry :=
  ⟨[], [("graphrag://bad", .error (.otherExc "boom"))]⟩

theorem resource_read_failure_semantics_witness :
    failingResourceRegistry.get_content "graphrag://missing" =
      ⟨.error (.resourceNotFound "graphrag://missing"), 0,
        failingResourceRegistry⟩ ∧
    failingResourceRegistry.get_content "graphrag://bad" =
      ⟨.error (.contentGenerationFailed "graphrag://bad" "boom"), 1,
        failingResourceRegistry⟩ :=
  ⟨(resource_read_failure_semantics failingResourceRegistry
      "graphrag://missing").1 (by decide),
   (resource_read_failure_semantics failingResourceRegistry
      "graphrag://bad").2 (.otherExc "boom") (by decide)⟩

/-- C3: `execute_tool` on a name absent from the handler map raises
`ToolNotFoundError(name)` (the lookup is outside the `try`, so this is
never an execution failure); when a registered handler raises any
exception `e` (including failures propagated from the injected
delegates), `execute_tool` wraps it as `ToolExecutionError(name,
str(e))`; and `execute_tool("analyze_graphrag_pattern", {})` — with both
delegates injected but `use_case` absent — raises a `ToolExecutionError`
naming the tool and stating `use_case is required` (double-wrapped by
the generic `except` clause of `execute_tool`). -/
theorem execute_tool_failure_semantics :
    (∀ (reg : ToolRegistry) (name : String) (arguments : PyDict String),
      dictFind? reg._tool_handlers name = none →
      reg.execute_tool name arguments = .error (.toolNotFound name)) ∧
    (∀ (reg : ToolRegistry) (name : String) (tag : HandlerTag)
        (arguments : PyDict String) (e : PyExc),
      dictFind? reg._tool_handlers name = some tag →
      runHandler reg tag arguments = .error e →
      reg.execute_tool name arguments =
        .error (.toolExecutionFailed name e.message)) ∧
    (∀ (rh : String → Except PyExc String)
        (ph : String → PyDict String → Except PyExc GetPromptResult),
      ToolRegistry.execute_tool ⟨allToolHandlers, some rh, some ph⟩
          "analyze_graphrag_pattern" [] =
        .error (.toolExecutionFailed "analyze_graphrag_pattern"
          "Failed to execute tool analyze_graphrag_pattern: use_case is required")) := by
  refine ⟨?_, ?_, ?_⟩
  · intro reg name arguments h
    simp [ToolRegistry.execute_tool, h]
  · intro reg name tag arguments e h hrun
    simp [ToolRegistry.execute_tool, h, hrun]
  · intro rh ph
    rfl

theorem execute_tool_failure_semantics_witness :
    ToolRegistry.execute_tool ⟨allToolHandlers, none, none⟩
        "does_not_exist" [] = .error (.toolNotFound "does_not_exist") ∧
    ToolRegistry.execute_tool ⟨allToolHandlers, none, none⟩
        "get_technology_stacks" [] =
      .error (.toolExecutionFailed "get_technology_stacks"
        "Failed to execute tool get_technology_stacks: Resource handler not configured") ∧
    ToolRegistry.execute_tool
        ⟨allToolHandlers, some (fun _ => .ok "c"),
          some (fun _ _ => .ok ⟨"d", []⟩)⟩
        "analyze_graphrag_pattern" [] =
      .error (.toolExecutionFailed "analyze_graphrag_pattern"
        "Failed to execute tool analyze_graphrag_pattern: use_case is required") :=
  ⟨execute_tool_failure_semantics.1 ⟨allToolHandlers, none, none⟩
      "does_not_exist" [] (by decide),
   execute_tool_failure_semantics.2.1 ⟨allToolHandlers, none, none⟩
      "get_technology_stacks" .getTechnologyStacks []
      (.toolExecutionFailed "get_technology_stacks"
        "Resource handler not configured") (by decide) rfl,
   execute_tool_failure_semantics.2.2 (fun _ => .ok "c")
      (fun _ _ => .ok ⟨"d", []⟩)⟩

/-- The tool name each `_handle_*` method passes to the
`ToolExecutionError` it raises itself. -/
def handlerSelfName : HandlerTag → String
  | .queryResource => "query_graphrag_resource"
  | .getConstructionPatterns => "get_construction_patterns"
  | .getEmbeddingStrategies => "get_embedding_strategies"
  | .getRetrievalStrategies => "get_retrieval_strategies"
  | .getArchitecturalTradeoffs => "get_architectural_tradeoffs"
  | .getTechnologyStacks => "get_technology_stacks"
  | .analyzePattern => "analyze_graphrag_pattern"
  | .compareArchitectures => "compare_architectures"
  | .designKnowledgeGraph => "design_knowledge_graph"
  | .implementRetrievalStrategy => "implement_retrieval_strategy"

/-- The not-configured detail string of each handler: the resource-backed
tools need `_resource_handler`, the prompt-backed tools `_prompt_handler`. -/
def handlerNotConfiguredMsg : HandlerTag → String
  | .queryResource => "Resource handler not configured"
  | .getConstructionPatterns => "Resource handler not configured"
  | .getEmbeddingStrategies => "Resource handler not configured"
  | .getRetrievalStrategies => "Resource handler not configured"
  | .getArchitecturalTradeoffs => "Resource handler not configured"
  | .getTechnologyStacks => "Resource handler not configured"
  | .analyzePattern => "Prompt handler not configured"
  | .compareArchitectures => "Prompt handler not configured"
  | .designKnowledgeGraph => "Prompt handler not configured"
  | .implementRetrievalStrategy => "Prompt handler not configured"

/-- C5 counterexample: with no delegates injected, a handler invocation
fails with `ToolExecutionError` — whose machine-readable code
`TOOL_EXECUTION_FAILED` is the taxonomy's `ExecutionFailed` kind, not a
distinct `NotConfigured` kind (the code defines no such class:
`specKindOf` maps no exception to `notConfigured`). -/
theorem not_configured_kind_cex :
    runHandler ⟨allToolHandlers, none, none⟩ .queryResource
        [("resource_uri", "graphrag://overview")] =
      .error (.toolExecutionFailed "query_graphrag_resource"
        "Resource handler not configured") ∧
    PyExc.errorCode (.toolExecutionFailed "query_graphrag_resource"
        "Resource handler not configured") = some "TOOL_EXECUTION_FAILED" ∧
    specKindOf (.toolExecutionFailed "query_graphrag_resource"
        "Resource handler not configured") = some .executionFailed ∧
    some SpecErrorKind.executionFailed ≠ some SpecErrorKind.notConfigured :=
  ⟨rfl, rfl, rfl, by decide⟩

/-- C5 (amended): if the two delegates have not been injected, every
tool handler invocation fails fast — before any argument validation or
delegate call, for every argument mapping — with a `ToolExecutionError`
naming the tool and stating that the needed handler is not configured
(this error, of the `ExecutionFailed` kind, is how the code realizes the
spec's `NotConfigured`; no distinct kind exists); through `execute_tool`
the same failure surfaces re-wrapped under the registered tool name. -/
theorem handlers_fail_fast_unconfigured (hs : PyDict HandlerTag)
    (tag : HandlerTag) (arguments : PyDict String) :
    runHandler ⟨hs, none, none⟩ tag arguments =
      .error (.toolExecutionFailed (handlerSelfName tag)
        (handlerNotConfiguredMsg tag)) ∧
    (∀ name : String, dictFind? allToolHandlers name = some tag →
      ToolRegistry.execute_tool ⟨allToolHandlers, none, none⟩
          name arguments =
        .error (.toolExecutionFailed name
          (PyExc.message (.toolExecutionFailed (handlerSelfName tag)
            (handlerNotConfiguredMsg tag))))) := by
  have hrun : ∀ hs' : PyDict HandlerTag,
      runHandler ⟨hs', none, none⟩ tag arguments =
        .error (.toolExecutionFailed (handlerSelfName tag)
          (handlerNotConfiguredMsg tag)) := by
    intro hs'
    cases tag <;> rfl
  refine ⟨hrun hs, ?_⟩
  intro name h
  simp [ToolRegistry.execute_tool, h, hrun]

theorem handlers_fail_fast_unconfigured_witness :
    runHandler ⟨allToolHandlers, none, none⟩ .analyzePattern
        [("use_case", "X")] =
      .error (.toolExecutionFailed "analyze_graphrag_pattern"
        "Prompt handler not configured") ∧
    ToolRegistry.execute_tool ⟨allToolHandlers, none, none⟩
        "analyze_graphrag_pattern" [("use_case", "X")] =
      .error (.toolExecutionFailed "analyze_graphrag_pattern"
        "Failed to execute tool analyze_graphrag_pattern: Prompt handler not configured") :=
  ⟨(handlers_fail_fast_unconfigured allToolHandlers .analyzePattern
      [("use_case", "X")]).1,
   (handlers_fail_fast_unconfigured allToolHandlers .analyzePattern
      [("use_case", "X")]).2 "analyze_graphrag_pattern" (by decide)⟩

/-- C10: in every handler with a required argument, the validation is a
Python falsiness test on `arguments.get(key, "")`, so a value bound to
the empty string is rejected exactly like an absent key (both make
`dictGet arguments key ""` empty): the handler raises the same
required-argument `ToolExecutionError` in both cases, and the delegates
are never invoked — the result is the same for every pair of injected
delegates `rh`, `ph`, which therefore cannot have been called. -/
theorem empty_required_arg_rejected (hs : PyDict HandlerTag)
    (rh : String → Except PyExc String)
    (ph : String → PyDict String → Except PyExc GetPromptResult)
    (arguments : PyDict String) :
    (dictGet arguments "resource_uri" "" = "" →
      runHandler ⟨hs, some rh, some ph⟩ .queryResource arguments =
        .error (.toolExecutionFailed "query_graphrag_resource"
          "resource_uri is required")) ∧
    (dictGet arguments "use_case" "" = "" →
      runHandler ⟨hs, some rh, some ph⟩ .analyzePattern arguments =
        .error (.toolExecutionFailed "analyze_graphrag_pattern"
          "use_case is required")) ∧
    (dictGet arguments "use_case" "" = "" →
      runHandler ⟨hs, some rh, some ph⟩ .compareArchitectures arguments =
        .error (.toolExecutionFailed "compare_architectures"
          "use_case is required")) ∧
    (dictGet arguments "domain" "" = "" →
      runHandler ⟨hs, some rh, some ph⟩ .designKnowledgeGraph arguments =
        .error (.toolExecutionFailed "design_knowledge_graph"
          "domain is required")) ∧
    (dictGet arguments "strategy" "" = "" →
      runHandler ⟨hs, some rh, some ph⟩ .implementRetrievalStrategy
          arguments =
        .error (.toolExecutionFailed "implement_retrieval_strategy"
          "strategy is required")) := by
  refine ⟨?_, ?_, ?_, ?_, ?_⟩ <;> intro h <;> simp [runHandler, h]

theorem empty_required_arg_rejected_witness :
    runHandler ⟨allToolHandlers, some (fun _ => .ok "c"),
        some (fun _ _ => .ok ⟨"d", [⟨"user", ⟨"text", "t"⟩⟩]⟩)⟩
      .queryResource [("resource_uri", "")] =
      .error (.toolExecutionFailed "query_graphrag_resource"
        "resource_uri is required") ∧
    runHandler ⟨allToolHandlers, some (fun _ => .ok "c"),
        some (fun _ _ => .ok ⟨"d", [⟨"user", ⟨"text", "t"⟩⟩]⟩)⟩
      .analyzePattern [] =
      .error (.toolExecutionFailed "analyze_graphrag_pattern"
        "use_case is required") ∧
    runHandler ⟨allToolHandlers, some (fun _ => .ok "c"),
        some (fun _ _ => .ok ⟨"d", [⟨"user", ⟨"text", "t"⟩⟩]⟩)⟩
      .compareArchitectures [("use_case", "")] =
      .error (.toolExecutionFailed "compare_architectures"
        "use_case is required") ∧
    runHandler ⟨allToolHandlers, some (fun _ => .ok "c"),
        some (fun _ _ => .ok ⟨"d", [⟨"user", ⟨"text", "t"⟩⟩]⟩)⟩
      .designKnowledgeGraph [("domain", "")] =
      .error (.toolExecutionFailed "design_knowledge_graph"
        "domain is required") ∧
    runHandler ⟨allToolHandlers, some (fun _ => .ok "c"),
        some (fun _ _ => .ok ⟨"d", [⟨"user", ⟨"text", "t"⟩⟩]⟩)⟩
      .implementRetrievalStrategy [("strategy", "")] =
      .error (.toolExecutionFailed "implement_retrieval_strategy"
        "strategy is required") :=
  ⟨(empty_required_arg_rejected allToolHandlers _ _
      [("resource_uri", "")]).1 (by decide),
   (empty_required_arg_rejected allToolHandlers _ _ []).2.1 (by decide),
   (empty_required_arg_rejected allToolHandlers _ _
      [("use_case", "")]).2.2.1 (by decide),
   (empty_required_arg_rejected allToolHandlers _ _
      [("domain", "")]).2.2.2.1 (by decide),
   (empty_required_arg_rejected allToolHandlers _ _
      [("strategy", "")]).2.2.2.2 (by decide)⟩

def failingPromptRegistry : PromptRegistry :=
  ⟨[], [("p", fun _ => .error (.otherExc "boom"))]⟩

/-- C4 counterexample: a prompt generator failure does NOT propagate as
a `GenerationFailed` wrapper carrying the prompt name — the `except`
block of `generate_prompt` is a bare `raise`, so the original exception
(`otherExc "boom"`, which is outside the `GraphRAGError` taxonomy and
mentions no prompt name) surfaces unchanged; `specKindOf` classifies it
as no taxonomy kind at all, in particular not `GenerationFailed`. -/
theorem prompt_failure_unwrapped_cex :
    failingPromptRegistry.generate_prompt "p" [] =
      .error (.otherExc "boom") ∧
    specKindOf (.otherExc "boom") ≠ some SpecErrorKind.generationFailed ∧
    PyExc.errorCode (.otherExc "boom") = none :=
  ⟨rfl, by decide, rfl⟩

/-- C4 (amended): `generate_prompt` on an unknown name raises
`PromptNotFoundError` carrying that name; a failure raised inside a
registered generator propagates out of `generate_prompt` UNCHANGED (the
original exception, not a `GenerationFailed` wrapper). -/
theorem prompt_generate_failure_semantics (reg : PromptRegistry)
    (name : String) (arguments : PyDict String) :
    (dictFind? reg._generators name = none →
      reg.generate_prompt name arguments =
        .error (.promptNotFound name)) ∧
    (∀ (generator : PyDict String → Except PyExc GetPromptResult)
        (e : PyExc),
      dictFind? reg._generators name = some generator →
      generator arguments = .error e →
      reg.generate_prompt name arguments = .error e) := by
  constructor
  · intro h
    simp [PromptRegistry.generate_prompt, h]
  · intro generator e h hg
    simp [PromptRegistry.generate_prompt, h, hg]

theorem prompt_generate_failure_semantics_witness :
    failingPromptRegistry.generate_prompt "missing" [] =
      .error (.promptNotFound "missing") ∧
    failingPromptRegistry.generate_prompt "p" [("x", "y")] =
      .error (.otherExc "boom") :=
  ⟨(prompt_generate_failure_semantics failingPromptRegistry
      "missing" []).1 rfl,
   (prompt_generate_failure_semantics failingPromptRegistry
      "p" [("x", "y")]).2
      (fun _ => .error (.otherExc "boom")) (.otherExc "boom") rfl rfl⟩

/-- C6: with the tool registry configured as in `_setup_tools` (its
resource delegate being the resource registry's `get_content`),
`execute_tool("query_graphrag_resource", {resource_uri: k})` returns
exactly the string a direct registry read of `k` returns, for every
registered key `k` bound to a generator producing `s` (keys are
non-empty — as all 25 catalog URIs are, third conjunct — since the
handler rejects a falsy `resource_uri` before delegating). -/
theorem query_resource_delegation (resourceRegistry : ResourceRegistry)
    (promptRegistry : PromptRegistry) (k s : String)
    (hbound : dictFind? resourceRegistry._content_generators k =
      some (.ok s))
    (hk : k ≠ "") :
    (setupToolRegistry resourceRegistry promptRegistry).execute_tool
        "query_graphrag_resource" [("resource_uri", k)] = .ok s ∧
    (resourceRegistry.get_content k).result = .ok s ∧
    ∀ uri ∈ GRAPHRAG_RESOURCE_URIS, uri ≠ "" := by
  have hgc : (resourceRegistry.get_content k).result = .ok s := by
    simp [ResourceRegistry.get_content, hbound]
  refine ⟨?_, hgc, by decide⟩
  have hfindTool : dictFind? allToolHandlers "query_graphrag_resource" =
      some HandlerTag.queryResource := by decide
  have huri : dictGet ([("resource_uri", k)] : PyDict String)
      "resource_uri" "" = k := by
    simp [dictGet, dictFind?]
  simp [ToolRegistry.execute_tool, setupToolRegistry, hfindTool,
    runHandler, huri, hk, hgc]

def overviewDemoRegistry : ResourceRegistry :=
  ⟨[], [("graphrag://overview", .ok "OVERVIEW")]⟩

def emptyPromptRegistry : PromptRegistry := ⟨[], []⟩

theorem query_resource_delegation_witness :
    (setupToolRegistry overviewDemoRegistry emptyPromptRegistry
      ).execute_tool "query_graphrag_resource"
        [("resource_uri", "graphrag://overview")] = .ok "OVERVIEW" ∧
    (overviewDemoRegistry.get_content "graphrag://overview").result =
      .ok "OVERVIEW" ∧
    ∀ uri ∈ GRAPHRAG_RESOURCE_URIS, uri ≠ "" :=
  query_resource_delegation overviewDemoRegistry emptyPromptRegistry
    "graphrag://overview" "OVERVIEW" (by decide) (by decide)

def emptyMessagesPromptHandler :
    String → PyDict String → Except PyExc GetPromptResult :=
  fun _ _ => .ok ⟨"d", []⟩

/-- C7 counterexample: when the prompt delegate returns a result with
zero messages, the handler's sentinel is the literal
`"No response generated"`, not the claimed fixed `"no content"`
string. -/
theorem no_content_sentinel_cex :
    ToolRegistry.execute_tool
        ⟨allToolHandlers, none, some emptyMessagesPromptHandler⟩
        "analyze_graphrag_pattern" [("use_case", "X")] =
      .ok "No response generated" ∧
    "No response generated" ≠ "no content" :=
  ⟨rfl, by decide⟩

/-- The flattening of a prompt result to its first message's text, as
the spec describes it for prompt-backed tools (with the zero-messages
sentinel the code actually uses). -/
def firstMessageText (result : GetPromptResult) : String :=
  match result.messages with
  | [] => "No response generated"
  | m :: _ => m.content.text

/-- C7 (amended): with the server wiring (prompt delegate =
`generate_prompt` of the registry holding the four real generators),
`execute_tool("analyze_graphrag_pattern", {use_case: X})` for non-empty
`X` returns exactly the flattened first-message text of
`generate("analyze-graphrag-pattern", args)` where `args` maps
`use_case` to `X` and `requirements` and `data_types` to the
empty-string defaults; the real generator yields exactly one message;
and, for any delegate, a prompt result with zero messages makes the
handler return the fixed sentinel `"No response generated"` (not
`"no content"`) instead of failing. -/
theorem analyze_pattern_tool_equiv (resourceRegistry : ResourceRegistry)
    (X : String) (hX : X ≠ "") :
    (setupToolRegistry resourceRegistry serverPromptRegistry).execute_tool
        "analyze_graphrag_pattern" [("use_case", X)] =
      (serverPromptRegistry.generate_prompt "analyze-graphrag-pattern"
        [("use_case", X), ("requirements", ""), ("data_types", "")]).map
        firstMessageText ∧
    (generate_analyze_pattern_prompt
      [("use_case", X), ("requirements", ""), ("data_types", "")]
      ).messages.length = 1 ∧
    (∀ (hs : PyDict HandlerTag)
        (ph : String → PyDict String → Except PyExc GetPromptResult)
        (arguments : PyDict String) (result : GetPromptResult),
      dictGet arguments "use_case" "" ≠ "" →
      ph "analyze-graphrag-pattern"
        [("use_case", dictGet arguments "use_case" ""),
         ("requirements", dictGet arguments "requirements" ""),
         ("data_types", dictGet arguments "data_types" "")] = .ok result →
      result.messages = [] →
      runHandler ⟨hs, none, some ph⟩ .analyzePattern arguments =
        .ok "No response generated") := by
  refine ⟨?_, rfl, ?_⟩
  · have hfindTool : dictFind? allToolHandlers "analyze_graphrag_pattern" =
        some HandlerTag.analyzePattern := by decide
    have hfindGen : dictFind? serverPromptRegistry._generators
        "analyze-graphrag-pattern" =
        some (fun arguments =>
          .ok (generate_analyze_pattern_prompt arguments)) := rfl
    have huse : dictGet ([("use_case", X)] : PyDict String)
        "use_case" "" = X := by
      simp [dictGet, dictFind?]
    have hreq : dictGet ([("use_case", X)] : PyDict String)
        "requirements" "" = "" := by
      simp [dictGet, dictFind?]
    have hdat : dictGet ([("use_case", X)] : PyDict String)
        "data_types" "" = "" := by
      simp [dictGet, dictFind?]
    simp [ToolRegistry.execute_tool, setupToolRegistry, hfindTool,
      runHandler, huse, hreq, hdat, hX, PromptRegistry.generate_prompt,
      hfindGen, Except.map, firstMessageText,
      generate_analyze_pattern_prompt]
  · intro hs ph arguments result hne hph hmsg
    simp [runHandler, hne, hph, hmsg]

def emptyResourceRegistry : ResourceRegistry := ⟨[], []⟩

theorem analyze_pattern_tool_equiv_witness :
    (setupToolRegistry emptyResourceRegistry serverPromptRegistry
      ).execute_tool "analyze_graphrag_pattern" [("use_case", "X")] =
      (serverPromptRegistry.generate_prompt "analyze-graphrag-pattern"
        [("use_case", "X"), ("requirements", ""), ("data_types", "")]).map
        firstMessageText ∧
    runHandler ⟨[], none, some emptyMessagesPromptHandler⟩ .analyzePattern
        [("use_case", "X")] = .ok "No response generated" :=
  ⟨(analyze_pattern_tool_equiv emptyResourceRegistry "X" (by decide)).1,
   (analyze_pattern_tool_equiv emptyResourceRegistry "X" (by decide)).2.2
     [] emptyMessagesPromptHandler [("use_case", "X")] ⟨"d", []⟩
     (by decide) rfl rfl⟩

/-- C8: in both registries, registering under an already-registered key
raises no error (registration is total) and silently overwrites: after
`register(k, g1)` then `register(k, g2)` the binding at `k` is `g2`, a
read of `k` invokes `g2` (its content is returned), and `k` appears
exactly once in each underlying dict (given the registry's keys were
unique, as a Python dict's always are). -/
theorem register_last_write_wins (resourceRegistry : ResourceRegistry)
    (resource : Resource) (g1 g2 : Except PyExc String) (s : String)
    (promptRegistry : PromptRegistry) (prompt : Prompt)
    (q1 q2 : PyDict String → Except PyExc GetPromptResult)
    (arguments : PyDict String) (result : GetPromptResult)
    (hr1 : keysNodup resourceRegistry._resources)
    (hr2 : keysNodup resourceRegistry._content_generators)
    (hp1 : keysNodup promptRegistry._prompts)
    (hp2 : keysNodup promptRegistry._generators)
    (hg2 : g2 = .ok s) (hq2 : q2 arguments = .ok result) :
    dictFind? ((resourceRegistry.register_resource resource g1
        ).register_resource resource g2)._content_generators
      resource.uri = some g2 ∧
    countKey ((resourceRegistry.register_resource resource g1
        ).register_resource resource g2)._resources resource.uri = 1 ∧
    countKey ((resourceRegistry.register_resource resource g1
        ).register_resource resource g2)._content_generators
      resource.uri = 1 ∧
    (((resourceRegistry.register_resource resource g1
        ).register_resource resource g2).get_content
      resource.uri).result = .ok s ∧
    dictFind? ((promptRegistry.register_prompt prompt q1
        ).register_prompt prompt q2)._generators prompt.name = some q2 ∧
    countKey ((promptRegistry.register_prompt prompt q1
        ).register_prompt prompt q2)._prompts prompt.name = 1 ∧
    countKey ((promptRegistry.register_prompt prompt q1
        ).register_prompt prompt q2)._generators prompt.name = 1 ∧
    ((promptRegistry.register_prompt prompt q1).register_prompt prompt q2
      ).generate_prompt prompt.name arguments = .ok result := by
  have f1 : dictFind? ((resourceRegistry.register_resource resource g1
      ).register_resource resource g2)._content_generators
      resource.uri = some g2 := by
    simp [ResourceRegistry.register_resource, dictFind?_dictSet_self]
  have f2 : dictFind? ((promptRegistry.register_prompt prompt q1
      ).register_prompt prompt q2)._generators prompt.name = some q2 := by
    simp [PromptRegistry.register_prompt, dictFind?_dictSet_self]
  refine ⟨f1, ?_, ?_, ?_, f2, ?_, ?_, ?_⟩
  · exact countKey_dictSet _ _ _ (keysNodup_dictSet _ _ _ hr1)
  · exact countKey_dictSet _ _ _ (keysNodup_dictSet _ _ _ hr2)
  · rw [hg2] at f1
    simp [ResourceRegistry.get_content, f1, hg2]
  · exact countKey_dictSet _ _ _ (keysNodup_dictSet _ _ _ hp1)
  · exact countKey_dictSet _ _ _ (keysNodup_dictSet _ _ _ hp2)
  · simp [PromptRegistry.generate_prompt, f2, hq2]

def demoResource : Resource :=
  ⟨"graphrag://demo-unit", "Demo", "A demo unit", "text/markdown"⟩

def demoPrompt : Prompt := ⟨"demo-prompt", "A demo prompt", []⟩

def demoPromptGenOld : PyDict String → Except PyExc GetPromptResult :=
  fun _ => .error (.otherExc "old")

def demoPromptGenNew : PyDict String → Except PyExc GetPromptResult :=
  fun _ => .ok ⟨"d2", []⟩

theorem register_last_write_wins_witness :
    dictFind? (((⟨[], []⟩ : ResourceRegistry).register_resource
        demoResource (.ok "one")).register_resource demoResource
        (.ok "two"))._content_generators "graphrag://demo-unit" =
      some (.ok "two") ∧
    countKey (((⟨[], []⟩ : ResourceRegistry).register_resource
        demoResource (.ok "one")).register_resource demoResource
        (.ok "two"))._resources "graphrag://demo-unit" = 1 ∧
    countKey (((⟨[], []⟩ : ResourceRegistry).register_resource
        demoResource (.ok "one")).register_resource demoResource
        (.ok "two"))._content_generators "graphrag://demo-unit" = 1 ∧
    ((((⟨[], []⟩ : ResourceRegistry).register_resource demoResource
        (.ok "one")).register_resource demoResource
        (.ok "two")).get_content "graphrag://demo-unit").result =
      .ok "two" ∧
    dictFind? (((⟨[], []⟩ : PromptRegistry).register_prompt demoPrompt
        demoPromptGenOld).register_prompt demoPrompt
        demoPromptGenNew)._generators "demo-prompt" =
      some demoPromptGenNew ∧
    countKey (((⟨[], []⟩ : PromptRegistry).register_prompt demoPrompt
        demoPromptGenOld).register_prompt demoPrompt
        demoPromptGenNew)._prompts "demo-prompt" = 1 ∧
    countKey (((⟨[], []⟩ : PromptRegistry).register_prompt demoPrompt
        demoPromptGenOld).register_prompt demoPrompt
        demoPromptGenNew)._generators "demo-prompt" = 1 ∧
    (((⟨[], []⟩ : PromptRegistry).register_prompt demoPrompt
        demoPromptGenOld).register_prompt demoPrompt
        demoPromptGenNew).generate_prompt "demo-prompt" [] =
      .ok ⟨"d2", []⟩ :=
  register_last_write_wins ⟨[], []⟩ demoResource (.ok "one") (.ok "two")
    "two" ⟨[], []⟩ demoPrompt demoPromptGenOld demoPromptGenNew []
    ⟨"d2", []⟩ (by simp [keysNodup]) (by simp [keysNodup])
    (by simp [keysNodup]) (by simp [keysNodup]) rfl rfl

/-- C9: each of the four prompt generators reads every argument with
`arguments.get(key, "")`-style lookups, so calling one with a required
argument absent does not raise: the generator behaves exactly as if the
argument were bound to the empty string (empty interpolation), and the
result has exactly one message.  Required arguments per the schema:
`use_case` (analyze), `domain` and `data_sources` (design), `strategy`
(implement), `requirements` (compare). -/
theorem prompt_generator_missing_arg_default :
    (∀ arguments : PyDict String, dictFind? arguments "use_case" = none →
      generate_analyze_pattern_prompt arguments =
        generate_analyze_pattern_prompt
          (dictSet arguments "use_case" "") ∧
      (generate_analyze_pattern_prompt arguments).messages.length = 1) ∧
    (∀ arguments : PyDict String, dictFind? arguments "domain" = none →
      generate_design_knowledge_graph_prompt arguments =
        generate_design_knowledge_graph_prompt
          (dictSet arguments "domain" "") ∧
      (generate_design_knowledge_graph_prompt arguments
        ).messages.length = 1) ∧
    (∀ arguments : PyDict String,
      dictFind? arguments "data_sources" = none →
      generate_design_knowledge_graph_prompt arguments =
        generate_design_knowledge_graph_prompt
          (dictSet arguments "data_sources" "") ∧
      (generate_design_knowledge_graph_prompt arguments
        ).messages.length = 1) ∧
    (∀ arguments : PyDict String, dictFind? arguments "strategy" = none →
      generate_implement_retrieval_strategy_prompt arguments =
        generate_implement_retrieval_strategy_prompt
          (dictSet arguments "strategy" "") ∧
      (generate_implement_retrieval_strategy_prompt arguments
        ).messages.length = 1) ∧
    (∀ arguments : PyDict String,
      dictFind? arguments "requirements" = none →
      generate_compare_architectures_prompt arguments =
        generate_compare_architectures_prompt
          (dictSet arguments "requirements" "") ∧
      (generate_compare_architectures_prompt arguments
        ).messages.length = 1) := by
  refine ⟨?_, ?_, ?_, ?_, ?_⟩
  · intro arguments h
    refine ⟨?_, rfl⟩
    simp only [generate_analyze_pattern_prompt,
      dictGet_of_find_none arguments "use_case" "" h,
      dictGet_dictSet_self,
      dictGet_dictSet_ne arguments "use_case" "constraints" ""
        "Not specified" (by decide)]
  · intro arguments h
    refine ⟨?_, rfl⟩
    simp only [generate_design_knowledge_graph_prompt,
      dictGet_of_find_none arguments "domain" "" h,
      dictGet_dictSet_self,
      dictGet_dictSet_ne arguments "domain" "data_sources" "" ""
        (by decide),
      dictGet_dictSet_ne arguments "domain" "query_types" ""
        "Not specified" (by decide)]
  · intro arguments h
    refine ⟨?_, rfl⟩
    simp only [generate_design_knowledge_graph_prompt,
      dictGet_of_find_none arguments "data_sources" "" h,
      dictGet_dictSet_self,
      dictGet_dictSet_ne arguments "data_sources" "domain" "" ""
        (by decide),
      dictGet_dictSet_ne arguments "data_sources" "query_types" ""
        "Not specified" (by decide)]
  · intro arguments h
    refine ⟨?_, rfl⟩
    simp only [generate_implement_retrieval_strategy_prompt,
      dictGet_of_find_none arguments "strategy" "" h,
      dictGet_dictSet_self,
      dictGet_dictSet_ne arguments "strategy" "technology_stack" ""
        "Open to suggestions" (by decide)]
  · intro arguments h
    refine ⟨?_, rfl⟩
    simp only [generate_compare_architectures_prompt,
      dictGet_of_find_none arguments "requirements" "" h,
      dictGet_dictSet_self]

theorem prompt_generator_missing_arg_default_witness :
    (generate_analyze_pattern_prompt [] =
        generate_analyze_pattern_prompt (dictSet [] "use_case" "") ∧
      (generate_analyze_pattern_prompt []).messages.length = 1) ∧
    (generate_design_knowledge_graph_prompt [] =
        generate_design_knowledge_graph_prompt (dictSet [] "domain" "") ∧
      (generate_design_knowledge_graph_prompt []).messages.length = 1) ∧
    (generate_design_knowledge_graph_prompt [] =
        generate_design_knowledge_graph_prompt
          (dictSet [] "data_sources" "") ∧
      (generate_design_knowledge_graph_prompt []).messages.length = 1) ∧
    (generate_implement_retrieval_strategy_prompt [] =
        generate_implement_retrieval_strategy_prompt
          (dictSet [] "strategy" "") ∧
      (generate_implement_retrieval_strategy_prompt []
        ).messages.length = 1) ∧
    (generate_compare_architectures_prompt [] =
        generate_compare_architectures_prompt
          (dictSet [] "requirements" "") ∧
      (generate_compare_architectures_prompt []).messages.length = 1) :=
  ⟨prompt_generator_missing_arg_default.1 [] rfl,
   prompt_generator_missing_arg_default.2.1 [] rfl,
   prompt_generator_missing_arg_default.2.2.1 [] rfl,
   prompt_generator_missing_arg_default.2.2.2.1 [] rfl,
   prompt_generator_missing_arg_default.2.2.2.2 [] rfl⟩

end GraphRAG
